import Mathlib

/-!
Verification of the shared game logic of the quiz-game repository.

The definitions below are a shallow embedding of the functions and
validation schemas in `src/shared/constants.js` and `src/shared/errors.js`:
JavaScript numbers are modelled as rationals (`ℚ`) where fractional values
occur (scores, multipliers, response times) and as `ℕ`/`ℤ` where the code
only ever handles integers; `Math.floor` is `Int.floor`; `Math.random`
based choices are modelled by an explicit choice parameter ranging over the
values `Math.floor(Math.random() * n)` can take.
-/

namespace QuizGame

/-- Embedding of the constant `POINTS_INCORRECT` from src/shared/constants.js
(points awarded for an incorrect answer). -/
def POINTS_INCORRECT : ℚ := 0

/-- Embedding of the constant `MIN_PLAYERS_TO_START` from
src/shared/constants.js. -/
def MIN_PLAYERS_TO_START : ℕ := 2

/-- Embedding of `calculateScore` from src/shared/constants.js:
the speed bonus decreases linearly from `maxSpeedBonus` to 0 over the time
limit; the bonus is `Math.floor` of the ratio times the bonus cap, and the
function performs no input validation. -/
def calculateScore (basePoints responseTime timeLimit maxSpeedBonus : ℚ) : ℚ :=
  let sr : ℚ := max 0 ((timeLimit - responseTime) / timeLimit)
  let speedBonus : ℤ := ⌊sr * maxSpeedBonus⌋
  basePoints + (speedBonus : ℚ)

/-- Modelled from the spec: the score dispatcher
`score(isCorrect, responseTimeMs, timeLimitMs, basePoints, maxSpeedBonus)`
of spec section 4.2 is not implemented as a single function in the
repository; the repository provides the correct-answer branch
(`calculateScore`) and the incorrect-answer constant (`POINTS_INCORRECT`),
and this definition dispatches between those two source pieces on
`isCorrect` exactly as the spec describes. -/
def score (isCorrect : Bool) (responseTime timeLimit basePoints maxSpeedBonus : ℚ) : ℚ :=
  if isCorrect then calculateScore basePoints responseTime timeLimit maxSpeedBonus
  else POINTS_INCORRECT

/-- C1: for a correct answer with responseTime ≥ 0, timeLimit > 0,
basePoints ≥ 0 and maxSpeedBonus ≥ 0, `calculateScore` returns
`basePoints + floor(speedRatio * maxSpeedBonus)` with
`speedRatio = max 0 ((timeLimit - responseTime) / timeLimit)` clamped to
[0,1] (under these hypotheses the clamp at 1 is inactive, so the code's
unclamped ratio agrees with the clamped one), and for
responseTime ≥ timeLimit the score is exactly `basePoints`. -/
theorem calculateScore_correct_formula
    (basePoints responseTime timeLimit maxSpeedBonus : ℚ)
    (hrt : 0 ≤ responseTime) (htl : 0 < timeLimit)
    (hbp : 0 ≤ basePoints) (hmsb : 0 ≤ maxSpeedBonus) :
    calculateScore basePoints responseTime timeLimit maxSpeedBonus
      = basePoints +
        ((⌊min 1 (max 0 ((timeLimit - responseTime) / timeLimit)) * maxSpeedBonus⌋ : ℤ) : ℚ)
    ∧ (timeLimit ≤ responseTime →
        calculateScore basePoints responseTime timeLimit maxSpeedBonus = basePoints) := by
  constructor
  · have hx : (timeLimit - responseTime) / timeLimit ≤ 1 := by
      rw [div_le_one htl]; linarith
    have hmax : max 0 ((timeLimit - responseTime) / timeLimit) ≤ 1 :=
      max_le (by norm_num) hx
    simp only [calculateScore, min_eq_right hmax]
  · intro hle
    have hneg : (timeLimit - responseTime) / timeLimit ≤ 0 :=
      div_nonpos_of_nonpos_of_nonneg (by linarith) htl.le
    simp only [calculateScore, max_eq_left hneg, zero_mul, Int.floor_zero,
      Int.cast_zero, add_zero]

/-- Concrete instantiation of `calculateScore_correct_formula` at
basePoints = 100, responseTime = 10, timeLimit = 10, maxSpeedBonus = 50. -/
theorem calculateScore_correct_formula_witness :
    calculateScore 100 10 10 50
      = 100 + ((⌊min 1 (max 0 (((10 : ℚ) - 10) / 10)) * 50⌋ : ℤ) : ℚ)
    ∧ ((10 : ℚ) ≤ 10 → calculateScore 100 10 10 50 = 100) :=
  calculateScore_correct_formula 100 10 10 50 (by norm_num) (by norm_num)
    (by norm_num) (by norm_num)

/-- C2: with the time limit positive and the speed-bonus cap non-negative,
the score of a correct answer is monotonically non-increasing in the
response time on [0, timeLimit], and the score of an incorrect (or absent)
answer is always 0. -/
theorem score_antitone_in_responseTime
    (rt1 rt2 rt3 timeLimit basePoints maxSpeedBonus : ℚ)
    (htl : 0 < timeLimit) (hmsb : 0 ≤ maxSpeedBonus)
    (h1 : 0 ≤ rt1) (h12 : rt1 ≤ rt2) (h2 : rt2 ≤ timeLimit) :
    score true rt2 timeLimit basePoints maxSpeedBonus
      ≤ score true rt1 timeLimit basePoints maxSpeedBonus
    ∧ score false rt3 timeLimit basePoints maxSpeedBonus = 0 := by
  constructor
  · have hdiv : (timeLimit - rt2) / timeLimit ≤ (timeLimit - rt1) / timeLimit :=
      div_le_div_of_nonneg_right (show timeLimit - rt2 ≤ timeLimit - rt1 by linarith) htl.le
    have hratio : max 0 ((timeLimit - rt2) / timeLimit) * maxSpeedBonus
        ≤ max 0 ((timeLimit - rt1) / timeLimit) * maxSpeedBonus :=
      mul_le_mul_of_nonneg_right (max_le_max le_rfl hdiv) hmsb
    have hfloor := Int.floor_le_floor hratio
    simp only [score, if_pos, calculateScore]
    have : ((⌊max 0 ((timeLimit - rt2) / timeLimit) * maxSpeedBonus⌋ : ℤ) : ℚ)
        ≤ ((⌊max 0 ((timeLimit - rt1) / timeLimit) * maxSpeedBonus⌋ : ℤ) : ℚ) := by
      exact_mod_cast hfloor
    linarith
  · simp [score, POINTS_INCORRECT]

/-- Concrete instantiation of `score_antitone_in_responseTime` at
response times 2 ≤ 5 with timeLimit = 10, basePoints = 100,
maxSpeedBonus = 50. -/
theorem score_antitone_in_responseTime_witness :
    score true 5 10 100 50 ≤ score true 2 10 100 50
    ∧ score false 7 10 100 50 = 0 :=
  score_antitone_in_responseTime 2 5 7 10 100 50 (by norm_num) (by norm_num)
    (by norm_num) (by norm_num) (by norm_num)

/-- Embedding of the `responseTime` field checks of `submitAnswerSchema`
from src/shared/errors.js: `z.number().min(0).max(300000)` — the
answer-submission validator rejects a negative response time. -/
def submitAnswerResponseTimeOk (responseTime : ℚ) : Bool :=
  decide (0 ≤ responseTime ∧ responseTime ≤ 300000)

/-- C3 counterexample: the scoring function `calculateScore` itself does not
reject a negative responseTime — called with responseTime = −5 (and
basePoints = 100, timeLimit = 10, maxSpeedBonus = 50) it returns the
numeric score 175, silently crediting a speed bonus of 75 that exceeds
the maxSpeedBonus cap of 50, instead of signalling an InvalidInput
error. -/
theorem calculateScore_negative_responseTime_returns_score :
    calculateScore 100 (-5) 10 50 = 175 ∧ (-5 : ℚ) < 0 ∧ (175 : ℚ) > 100 + 50 := by
  refine ⟨?_, by norm_num, by norm_num⟩
  have h1 : ((10 : ℚ) - (-5)) / 10 = 3 / 2 := by norm_num
  have h2 : max (0 : ℚ) (3 / 2) = 3 / 2 := by norm_num
  simp only [calculateScore, h1, h2]
  norm_num

/-- C3 amended: a negative responseTime is rejected by the submit-answer
validation schema (its `min(0)` bound), not by the scoring function, which
computes a numeric score for such inputs. -/
theorem submitAnswerSchema_rejects_negative_responseTime
    (responseTime : ℚ) (h : responseTime < 0) :
    submitAnswerResponseTimeOk responseTime = false := by
  simp only [submitAnswerResponseTimeOk, decide_eq_false_iff_not]
  intro hc
  exact absurd hc.1 (not_le.mpr h)

/-- Concrete instantiation of
`submitAnswerSchema_rejects_negative_responseTime` at responseTime = −5. -/
theorem submitAnswerSchema_rejects_negative_responseTime_witness :
    submitAnswerResponseTimeOk (-5) = false :=
  submitAnswerSchema_rejects_negative_responseTime (-5) (by norm_num)

/-- Embedding of `calculateStreakMultiplier` from src/shared/constants.js:
for a streak of at most 1 the multiplier is 1, otherwise it is
`1 + (streak - 1) * (baseMultiplier - 1)` capped at `maxMultiplier`. -/
def calculateStreakMultiplier (streak : ℤ) (baseMultiplier maxMultiplier : ℚ) : ℚ :=
  if streak ≤ 1 then 1
  else min (1 + ((streak : ℚ) - 1) * (baseMultiplier - 1)) maxMultiplier

/-- C4 counterexample: at streak = 0 (a player's first correct answer)
with streakFactor = 11/10 ≥ 1 and maxStreakMultiplier = 2 ≥ 1, the code
returns multiplier 1 while the claimed formula
`min(1 + (streak − 1)(streakFactor − 1), maxStreakMultiplier)` yields
9/10, so the claim fails for streak = 0. -/
theorem calculateStreakMultiplier_zero_streak_counterexample :
    calculateStreakMultiplier 0 (11 / 10) 2 = 1
    ∧ min (1 + ((0 : ℚ) - 1) * (11 / 10 - 1)) 2 = 9 / 10
    ∧ (1 : ℚ) ≠ 9 / 10 := by
  refine ⟨?_, by norm_num, by norm_num⟩
  simp [calculateStreakMultiplier]

/-- C4 amended: for streak ≥ 1 (the count before increment) with
streakFactor ≥ 1 and maxStreakMultiplier ≥ 1 the multiplier equals
`min(1 + (streak − 1)(streakFactor − 1), maxStreakMultiplier)`; for
streak ≤ 1 — in particular streak = 0 on a first correct answer — the
multiplier is the constant 1 rather than the formula's value. -/
theorem calculateStreakMultiplier_spec
    (streak : ℤ) (streakFactor maxMultiplier : ℚ)
    (hf : 1 ≤ streakFactor) (hm : 1 ≤ maxMultiplier) :
    (1 ≤ streak →
      calculateStreakMultiplier streak streakFactor maxMultiplier
        = min (1 + ((streak : ℤ) - 1 : ℚ) * (streakFactor - 1)) maxMultiplier)
    ∧ (streak ≤ 1 →
      calculateStreakMultiplier streak streakFactor maxMultiplier = 1) := by
  constructor
  · intro hs
    rcases eq_or_lt_of_le hs with heq | hlt
    · rw [← heq]
      simp only [calculateStreakMultiplier, if_pos le_rfl]
      norm_num
      exact hm
    · have hnot : ¬ streak ≤ 1 := not_le.mpr hlt
      simp only [calculateStreakMultiplier, if_neg hnot]
  · intro hs
    simp only [calculateStreakMultiplier, if_pos hs]

/-- Concrete instantiation of `calculateStreakMultiplier_spec` at
streak = 3, streakFactor = 11/10, maxStreakMultiplier = 2. -/
theorem calculateStreakMultiplier_spec_witness :
    calculateStreakMultiplier 3 (11 / 10) 2
      = min (1 + (((3 : ℤ) : ℤ) - 1 : ℚ) * (11 / 10 - 1)) 2 :=
  (calculateStreakMultiplier_spec 3 (11 / 10) 2 (by norm_num) (by norm_num)).1
    (by norm_num)

/-- A player as consumed by `getPlayerRank` in src/shared/constants.js: the
function reads only `id` and `score`; the cumulative-correct count a
ranking tie-break could consult is carried along to show it is ignored. -/
structure RankPlayer where
  id : ℕ
  score : ℤ
  correctCount : ℕ
deriving DecidableEq, Repr

/-- Comparator of the sort inside `getPlayerRank`:
`(a, b) => b.score - a.score`. A stable sort keeps `a` before `b` exactly
when the comparator is non-positive, i.e. when `b.score ≤ a.score`. -/
def rankLE (a b : RankPlayer) : Bool :=
  b.score ≤ a.score

/-- The sort step of `getPlayerRank`:
`[...players].sort((a, b) => b.score - a.score)`. JavaScript's
`Array.prototype.sort` is specified to be stable, so it is embedded as a
stable merge sort under `rankLE`. -/
def sortByScore (players : List RankPlayer) : List RankPlayer :=
  players.mergeSort rankLE

/-- Embedding of `getPlayerRank` from src/shared/constants.js: position of
the player in the score-sorted list, 1-based (`findIndex` yields −1 for a
missing player, so a missing player gets rank 0). -/
def getPlayerRank (players : List RankPlayer) (playerId : ℕ) : ℤ :=
  (match (sortByScore players).findIdx? (fun p => p.id = playerId) with
   | some i => (i : ℤ)
   | none => -1) + 1

/-- C5 counterexample: ranking ignores the cumulative-correct count
entirely. Two players join in order 1 then 2 with equal scores; whichever
direction the claimed correct-count tie-break has, swapping the two
players' correct counts must move player 2 to rank 1 in one of the two
configurations, but the code gives player 1 rank 1 and player 2 rank 2 in
both — ties are broken by join order alone. -/
theorem getPlayerRank_ignores_correctCount :
    getPlayerRank [⟨1, 100, 1⟩, ⟨2, 100, 2⟩] 2 = 2
    ∧ getPlayerRank [⟨1, 100, 2⟩, ⟨2, 100, 1⟩] 2 = 2
    ∧ getPlayerRank [⟨1, 100, 1⟩, ⟨2, 100, 2⟩] 1 = 1
    ∧ getPlayerRank [⟨1, 100, 2⟩, ⟨2, 100, 1⟩] 1 = 1 := by
  have h1 : sortByScore [⟨1, 100, 1⟩, ⟨2, 100, 2⟩] = [⟨1, 100, 1⟩, ⟨2, 100, 2⟩] :=
    List.mergeSort_of_sorted (by decide)
  have h2 : sortByScore [⟨1, 100, 2⟩, ⟨2, 100, 1⟩] = [⟨1, 100, 2⟩, ⟨2, 100, 1⟩] :=
    List.mergeSort_of_sorted (by decide)
  refine ⟨?_, ?_, ?_, ?_⟩ <;>
    · unfold getPlayerRank
      simp only [h1, h2]
      decide

/-- C5 amended: the ranking order is a deterministic function of the input
roster (it is a pure function), it is sorted by descending score, it is a
permutation of the roster, and any two players in join order whose scores
satisfy the descending comparator — in particular any two players with
equal scores — keep their join order: ties are broken by join order only,
with no cumulative-correct-count tie-break. -/
theorem sortByScore_spec (players : List RankPlayer) (p q : RankPlayer)
    (hsub : [p, q].Sublist players) (hpq : q.score ≤ p.score) :
    (sortByScore players).Pairwise (fun a b => b.score ≤ a.score)
    ∧ (sortByScore players).Perm players
    ∧ [p, q].Sublist (sortByScore players) := by
  have htrans : ∀ a b c : RankPlayer, rankLE a b → rankLE b c → rankLE a c := by
    intro a b c hab hbc
    simp only [rankLE, decide_eq_true_eq] at *
    exact le_trans hbc hab
  have htotal : ∀ a b : RankPlayer, rankLE a b || rankLE b a := by
    intro a b
    simp only [rankLE, Bool.or_eq_true, decide_eq_true_eq]
    exact le_total b.score a.score
  refine ⟨?_, List.mergeSort_perm players rankLE, ?_⟩
  · exact (List.sorted_mergeSort htrans htotal players).imp
      (fun h => by simpa [rankLE] using h)
  · exact List.sublist_mergeSort htrans htotal
      (List.pairwise_pair.mpr (by simpa [rankLE] using hpq)) hsub

/-- Concrete instantiation of `sortByScore_spec` on a two-player roster
with equal scores, players in join order 1 then 2. -/
theorem sortByScore_spec_witness :
    (sortByScore [⟨1, 100, 1⟩, ⟨2, 100, 2⟩]).Pairwise
      (fun a b : RankPlayer => b.score ≤ a.score)
    ∧ (sortByScore [⟨1, 100, 1⟩, ⟨2, 100, 2⟩]).Perm [⟨1, 100, 1⟩, ⟨2, 100, 2⟩]
    ∧ [(⟨1, 100, 1⟩ : RankPlayer), ⟨2, 100, 2⟩].Sublist
        (sortByScore [⟨1, 100, 1⟩, ⟨2, 100, 2⟩]) :=
  sortByScore_spec [⟨1, 100, 1⟩, ⟨2, 100, 2⟩] ⟨1, 100, 1⟩ ⟨2, 100, 2⟩
    (by decide) (by decide)

/-- A lobby member as consumed by `canStartGame` and `joinLobby`: `pid`
identifies the player, `isReady` is the ready flag read by the
ready-players filter. -/
structure LobbyPlayer where
  pid : ℕ
  isReady : Bool
deriving DecidableEq, Repr

/-- Lobby statuses from `LOBBY_STATUS` in src/shared/constants.js. -/
inductive LobbyStatus where
  | waiting
  | starting
  | active
  | finished
  | abandoned
deriving DecidableEq, Repr

/-- The lobby fields read by `hasAvailableSlots` and `canStartGame`
(roster, capacity) plus the status consulted by the join operation. -/
structure Lobby where
  players : List LobbyPlayer
  maxPlayers : ℕ
  status : LobbyStatus
deriving DecidableEq, Repr

/-- Embedding of `canStartGame` from src/shared/constants.js: the ready
players are filtered out of the roster, and the game can start when there
are at least 2 of them and they are the whole roster. -/
def canStartGame (lobby : Lobby) : Bool :=
  let readyPlayers := lobby.players.filter (fun p => p.isReady)
  decide (2 ≤ readyPlayers.length ∧ readyPlayers.length = lobby.players.length)

/-- C6: the game-start precondition holds if and only if the lobby has at
least MIN_PLAYERS_TO_START (2) players and every player in the roster is
marked ready; a lobby failing either condition cannot start a game. -/
theorem canStartGame_iff (lobby : Lobby) :
    canStartGame lobby = true ↔
      (MIN_PLAYERS_TO_START ≤ lobby.players.length
        ∧ ∀ p ∈ lobby.players, p.isReady = true) := by
  unfold canStartGame MIN_PLAYERS_TO_START
  rw [decide_eq_true_eq]
  constructor
  · rintro ⟨htwo, hlen⟩
    have hall := List.filter_length_eq_length.mp hlen
    exact ⟨hlen ▸ htwo, fun p hp => by simpa using hall p hp⟩
  · rintro ⟨htwo, hall⟩
    have hlen : (lobby.players.filter (fun p => p.isReady)).length
        = lobby.players.length :=
      List.filter_length_eq_length.mpr (fun p hp => by simpa using hall p hp)
    exact ⟨hlen ▸ htwo, hlen⟩

/-- Embedding of `hasAvailableSlots` from src/shared/constants.js. -/
def hasAvailableSlots (lobby : Lobby) : Bool :=
  lobby.players.length < lobby.maxPlayers

/-- Join failures of spec section 4.3 for `joinLobby`. -/
inductive JoinError where
  | lobbyFull
  | lobbyClosed
  | alreadyInLobby
deriving DecidableEq, Repr

/-- Modelled from the spec: `joinLobby(lobbyId, player) → Lobby` is not
implemented under src (the lobbyService there is a statistics stub), so
the operation is taken from the spec's words — it fails LobbyFull if at
capacity, LobbyClosed if status ≠ waiting, AlreadyInLobby if the player is
already present, and otherwise appends the player to the roster. The
capacity test is the source function `hasAvailableSlots`. -/
def joinLobby (lobby : Lobby) (player : LobbyPlayer) : Except JoinError Lobby :=
  if hasAvailableSlots lobby then
    if lobby.status = LobbyStatus.waiting then
      if lobby.players.any (fun p => p.pid = player.pid) then
        Except.error JoinError.alreadyInLobby
      else
        Except.ok { lobby with players := lobby.players ++ [player] }
    else Except.error JoinError.lobbyClosed
  else Except.error JoinError.lobbyFull

/-- The roster after a join attempt: the new roster on success, the
untouched roster when the attempt was rejected. -/
def rosterAfterJoin (lobby : Lobby) (player : LobbyPlayer) : List LobbyPlayer :=
  match joinLobby lobby player with
  | Except.ok l => l.players
  | Except.error _ => lobby.players

/-- C7: a join attempt on a lobby whose roster is at capacity is rejected
with LobbyFull and leaves the roster unchanged at maxPlayers players; and
a lobby has available slots if and only if its roster is strictly below
maxPlayers. -/
theorem joinLobby_full_rejected (lobby : Lobby) (player : LobbyPlayer)
    (hfull : lobby.players.length = lobby.maxPlayers) :
    joinLobby lobby player = Except.error JoinError.lobbyFull
    ∧ (rosterAfterJoin lobby player).length = lobby.maxPlayers
    ∧ (hasAvailableSlots lobby = true ↔ lobby.players.length < lobby.maxPlayers) := by
  have hs : hasAvailableSlots lobby = false := by
    simp only [hasAvailableSlots, decide_eq_false_iff_not, not_lt]
    omega
  have hj : joinLobby lobby player = Except.error JoinError.lobbyFull := by
    unfold joinLobby
    rw [hs]
    rfl
  refine ⟨hj, ?_, by simp [hasAvailableSlots]⟩
  unfold rosterAfterJoin
  rw [hj]
  exact hfull

/-- Concrete instantiation of `joinLobby_full_rejected`: the spec scenario
of a lobby with maxPlayers = 4 and a full roster of 4, rejecting a 5th
player. -/
theorem joinLobby_full_rejected_witness :
    joinLobby
        { players := [⟨1, true⟩, ⟨2, true⟩, ⟨3, true⟩, ⟨4, true⟩],
          maxPlayers := 4, status := LobbyStatus.waiting } ⟨5, false⟩
      = Except.error JoinError.lobbyFull
    ∧ (rosterAfterJoin
        { players := [⟨1, true⟩, ⟨2, true⟩, ⟨3, true⟩, ⟨4, true⟩],
          maxPlayers := 4, status := LobbyStatus.waiting } ⟨5, false⟩).length = 4
    ∧ (hasAvailableSlots
        { players := [⟨1, true⟩, ⟨2, true⟩, ⟨3, true⟩, ⟨4, true⟩],
          maxPlayers := 4, status := LobbyStatus.waiting } = true
        ↔ ([⟨1, true⟩, ⟨2, true⟩, ⟨3, true⟩, (⟨4, true⟩ : LobbyPlayer)]).length < 4) :=
  joinLobby_full_rejected
    { players := [⟨1, true⟩, ⟨2, true⟩, ⟨3, true⟩, ⟨4, true⟩],
      maxPlayers := 4, status := LobbyStatus.waiting } ⟨5, false⟩ (by decide)

/-- Embedding of the constant `QUESTION_CATEGORIES` from
src/shared/constants.js. -/
def QUESTION_CATEGORIES : List String :=
  ["general-knowledge", "science", "history", "geography", "sports",
   "entertainment", "arts-literature", "technology", "nature", "mythology"]

/-- Embedding of the constant `DIFFICULTY_LEVELS` from
src/shared/constants.js. -/
def DIFFICULTY_LEVELS : List String := ["easy", "medium", "hard"]

/-- Embedding of the constant `MIN_TIME_PER_QUESTION` from
src/shared/constants.js. -/
def MIN_TIME_PER_QUESTION : ℤ := 5

/-- Embedding of the constant `MAX_TIME_PER_QUESTION` from
src/shared/constants.js. -/
def MAX_TIME_PER_QUESTION : ℤ := 120

/-- A question as validated by `questionSchema` in src/shared/errors.js and
consumed by `applyFiftyFifty` in src/shared/constants.js. The optional
`imageUrl` field is carried but its URL-format check is not embedded
(this only widens the set of accepted questions, which is the safe
direction for the bounds property). -/
structure Question where
  id : String
  text : String
  options : List String
  correctIndex : ℤ
  category : String
  difficulty : String
  timeLimit : ℤ
  imageUrl : Option String
  explanation : Option String
  points : Option ℤ
deriving DecidableEq, Repr

/-- Embedding of `questionSchema` from src/shared/errors.js: field checks
of the Zod object schema plus its refine step
`correctIndex < options.length`. -/
def questionSchemaOk (q : Question) : Bool :=
  decide (1 ≤ q.id.length)
  && decide (1 ≤ q.text.length ∧ q.text.length ≤ 500)
  && decide (2 ≤ q.options.length ∧ q.options.length ≤ 6)
  && q.options.all (fun o => decide (1 ≤ o.length ∧ o.length ≤ 200))
  && decide (0 ≤ q.correctIndex)
  && decide (q.category ∈ QUESTION_CATEGORIES)
  && decide (q.difficulty ∈ DIFFICULTY_LEVELS)
  && decide (MIN_TIME_PER_QUESTION ≤ q.timeLimit ∧ q.timeLimit ≤ MAX_TIME_PER_QUESTION)
  && (match q.explanation with
      | none => true
      | some e => decide (e.length ≤ 1000))
  && (match q.points with
      | none => true
      | some p => decide (1 ≤ p ∧ p ≤ 1000))
  && decide (q.correctIndex < (q.options.length : ℤ))

/-- C8: every question accepted by `questionSchema` has between 2 and 6
options and a non-negative correctIndex strictly below the number of
options, so looking up the correct option of a validated question is
always in bounds. -/
theorem questionSchemaOk_correctIndex_in_bounds (q : Question)
    (h : questionSchemaOk q = true) :
    2 ≤ q.options.length ∧ q.options.length ≤ 6
    ∧ 0 ≤ q.correctIndex ∧ q.correctIndex.toNat < q.options.length
    ∧ (q.options[q.correctIndex.toNat]?).isSome = true := by
  simp only [questionSchemaOk, Bool.and_eq_true, decide_eq_true_eq] at h
  obtain ⟨⟨⟨⟨⟨⟨⟨⟨⟨⟨hid, htext⟩, hopts⟩, hall⟩, hci⟩, hcat⟩, hdiff⟩, htime⟩,
    hexp⟩, hpts⟩, hrefine⟩ := h
  have hlt : q.correctIndex.toNat < q.options.length := by omega
  exact ⟨hopts.1, hopts.2, hci, hlt, by
    rw [List.getElem?_eq_getElem hlt]
    rfl⟩

/-- Concrete instantiation of `questionSchemaOk_correctIndex_in_bounds` on
a three-option science question whose correct option has index 1. -/
theorem questionSchemaOk_correctIndex_in_bounds_witness :
    2 ≤ (["4", "6", "8"] : List String).length
    ∧ (["4", "6", "8"] : List String).length ≤ 6
    ∧ 0 ≤ (1 : ℤ) ∧ (1 : ℤ).toNat < (["4", "6", "8"] : List String).length
    ∧ ((["4", "6", "8"] : List String)[(1 : ℤ).toNat]?).isSome = true :=
  questionSchemaOk_correctIndex_in_bounds
    { id := "q1", text := "How many legs does a spider have?",
      options := ["4", "6", "8"], correctIndex := 1, category := "science",
      difficulty := "easy", timeLimit := 30, imageUrl := none,
      explanation := none, points := none } (by decide)

/-- The character pool of `generateLobbyId` from src/shared/constants.js. -/
def lobbyIdChars : List Char := "ABCDEFGHIJKLMNOPQRSTUVWXYZ0123456789".toList

/-- Embedding of `generateLobbyId` from src/shared/constants.js: six
characters, each drawn at position `Math.floor(Math.random() * 36)` of the
36-character pool; the random draws are the explicit parameter `pick`. -/
def generateLobbyId (pick : Fin 6 → Fin 36) : String :=
  String.mk ((List.finRange 6).map (fun i => lobbyIdChars.getD (pick i) 'A'))

/-- Embedding of `isValidLobbyId` from src/shared/constants.js: the test of
the anchored regular expression for exactly six characters drawn from
A–Z and 0–9. -/
def isValidLobbyId (s : String) : Bool :=
  decide (s.length = 6)
  && s.toList.all (fun c => ('A' ≤ c && c ≤ 'Z') || ('0' ≤ c && c ≤ '9'))

/-- C9: for every possible sequence of random draws, the generated lobby ID
is a 6-character string over uppercase A–Z and 0–9 and is accepted by the
lobby-ID validator. -/
theorem isValidLobbyId_generateLobbyId (pick : Fin 6 → Fin 36) :
    isValidLobbyId (generateLobbyId pick) = true := by
  have hchar : ∀ j : Fin 36,
      (('A' ≤ lobbyIdChars.getD (j : ℕ) 'A' && lobbyIdChars.getD (j : ℕ) 'A' ≤ 'Z')
        || ('0' ≤ lobbyIdChars.getD (j : ℕ) 'A' && lobbyIdChars.getD (j : ℕ) 'A' ≤ '9'))
        = true := by decide
  unfold isValidLobbyId generateLobbyId
  rw [Bool.and_eq_true]
  constructor
  · rw [decide_eq_true_eq]
    show (String.mk ((List.finRange 6).map _)).length = 6
    simp [String.length]
  · rw [List.all_eq_true]
    intro c hc
    have hc' : c ∈ (List.finRange 6).map (fun i => lobbyIdChars.getD (pick i) 'A') := hc
    obtain ⟨i, _, rfl⟩ := List.mem_map.mp hc'
    exact hchar (pick i)

/-- Embedding of `getRandomElement` from src/shared/constants.js:
`array[Math.floor(Math.random() * array.length)]`, with the random draw as
the explicit index parameter `r` (always below `array.length` for a
non-empty array, which is the only way the source uses it). -/
def getRandomElement (array : List ℤ) (r : ℕ) : ℤ :=
  array.getD r 0

/-- Embedding of `applyFiftyFifty` from src/shared/constants.js: the wrong
option indices are those different from `correctIndex`; the result keeps
the correct index and one randomly drawn wrong index, sorted ascending
(`[correctIndex, keepWrong].sort((a, b) => a - b)`). -/
def applyFiftyFifty (q : Question) (r : ℕ) : List ℤ :=
  let wrongIndices := ((List.range q.options.length).map (fun i : ℕ => (i : ℤ))).filter
    (fun i => i ≠ q.correctIndex)
  let keepWrong := getRandomElement wrongIndices r
  if q.correctIndex ≤ keepWrong then [q.correctIndex, keepWrong]
  else [keepWrong, q.correctIndex]

/-- Membership facts about the wrong-answer index pool built inside
`applyFiftyFifty`: every element is a wrong index strictly within option
bounds. -/
theorem mem_wrongIndices {n : ℕ} {c w : ℤ}
    (hw : w ∈ ((List.range n).map (fun i : ℕ => (i : ℤ))).filter (fun i => i ≠ c)) :
    w ≠ c ∧ 0 ≤ w ∧ w < (n : ℤ) := by
  rw [List.mem_filter] at hw
  obtain ⟨hmem, hne⟩ := hw
  rw [List.mem_map] at hmem
  obtain ⟨i, hi, rfl⟩ := hmem
  rw [List.mem_range] at hi
  exact ⟨by simpa using hne, Int.ofNat_nonneg i, by exact_mod_cast hi⟩

/-- C10: for a question with at least two options and an in-bounds
correctIndex, and any random draw below the wrong-index pool size, the
fifty-fifty powerup returns exactly two distinct option indices in strictly
ascending order: the correctIndex and one wrong index strictly within
option bounds. -/
theorem applyFiftyFifty_spec (q : Question) (r : ℕ)
    (hopt : 2 ≤ q.options.length)
    (hc0 : 0 ≤ q.correctIndex) (hclen : q.correctIndex < (q.options.length : ℤ))
    (hr : r < (((List.range q.options.length).map (fun i : ℕ => (i : ℤ))).filter
      (fun i => i ≠ q.correctIndex)).length) :
    ∃ w : ℤ, w ≠ q.correctIndex ∧ 0 ≤ w ∧ w < (q.options.length : ℤ)
      ∧ applyFiftyFifty q r
          = (if q.correctIndex ≤ w then [q.correctIndex, w] else [w, q.correctIndex])
      ∧ (applyFiftyFifty q r).length = 2
      ∧ q.correctIndex ∈ applyFiftyFifty q r
      ∧ (applyFiftyFifty q r).Chain' (· < ·) := by
  obtain ⟨w, hwdef⟩ : ∃ w, (((List.range q.options.length).map (fun i : ℕ => (i : ℤ))).filter
      (fun i => i ≠ q.correctIndex)).getD r 0 = w := ⟨_, rfl⟩
  have hmemw : w ∈ ((List.range q.options.length).map (fun i : ℕ => (i : ℤ))).filter
      (fun i => i ≠ q.correctIndex) := by
    rw [← hwdef, List.getD_eq_getElem?_getD, List.getElem?_eq_getElem hr, Option.getD_some]
    exact List.getElem_mem hr
  obtain ⟨hne, h0, hlt⟩ := mem_wrongIndices hmemw
  have hEq : applyFiftyFifty q r
      = (if q.correctIndex ≤ w then [q.correctIndex, w] else [w, q.correctIndex]) := by
    rw [← hwdef]
    rfl
  refine ⟨w, hne, h0, hlt, hEq, ?_, ?_, ?_⟩
  · rw [hEq]
    rcases le_or_lt q.correctIndex w with hcw | hcw
    · rw [if_pos hcw]
      rfl
    · rw [if_neg (not_le.mpr hcw)]
      rfl
  · rw [hEq]
    rcases le_or_lt q.correctIndex w with hcw | hcw
    · rw [if_pos hcw]
      exact List.mem_cons_self _ _
    · rw [if_neg (not_le.mpr hcw)]
      exact List.mem_cons_of_mem _ (List.mem_cons_self _ _)
  · rw [hEq]
    rcases le_or_lt q.correctIndex w with hcw | hcw
    · rw [if_pos hcw]
      exact List.chain'_pair.mpr (lt_of_le_of_ne hcw (Ne.symm hne))
    · rw [if_neg (not_le.mpr hcw)]
      exact List.chain'_pair.mpr hcw

/-- Concrete instantiation of `applyFiftyFifty_spec` on a three-option
question with correctIndex 1 and random draw 0: the wrong-index pool is
[0, 2], the kept wrong index is 0, the result is the sorted pair. -/
theorem applyFiftyFifty_spec_witness :
    ∃ w : ℤ, w ≠ (1 : ℤ) ∧ 0 ≤ w ∧ w < ((["4", "6", "8"] : List String).length : ℤ)
      ∧ applyFiftyFifty
          { id := "q1", text := "How many legs does a spider have?",
            options := ["4", "6", "8"], correctIndex := 1, category := "science",
            difficulty := "easy", timeLimit := 30, imageUrl := none,
            explanation := none, points := none } 0
          = (if (1 : ℤ) ≤ w then [(1 : ℤ), w] else [w, 1])
      ∧ (applyFiftyFifty
          { id := "q1", text := "How many legs does a spider have?",
            options := ["4", "6", "8"], correctIndex := 1, category := "science",
            difficulty := "easy", timeLimit := 30, imageUrl := none,
            explanation := none, points := none } 0).length = 2
      ∧ (1 : ℤ) ∈ applyFiftyFifty
          { id := "q1", text := "How many legs does a spider have?",
            options := ["4", "6", "8"], correctIndex := 1, category := "science",
            difficulty := "easy", timeLimit := 30, imageUrl := none,
            explanation := none, points := none } 0
      ∧ (applyFiftyFifty
          { id := "q1", text := "How many legs does a spider have?",
            options := ["4", "6", "8"], correctIndex := 1, category := "science",
            difficulty := "easy", timeLimit := 30, imageUrl := none,
            explanation := none, points := none } 0).Chain' (· < ·) :=
  applyFiftyFifty_spec
    { id := "q1", text := "How many legs does a spider have?",
      options := ["4", "6", "8"], correctIndex := 1, category := "science",
      difficulty := "easy", timeLimit := 30, imageUrl := none,
      explanation := none, points := none } 0
    (by decide) (by decide) (by decide) (by decide)

end QuizGame
